import Mathlib

/-!
Shallow embedding of the swip state reducer (src/src/server/reducer.js).

The reducer is a pure function from a state snapshot and an action to the
next snapshot.  JavaScript objects keyed by id are modelled as association
lists over Nat keys (the uid generator of the source is an external,
collision-free id supplier, so ids are taken as an abstract Nat supplied to
each operation that calls uid()).  Wall-clock time (Date.now) is an
injectable parameter, as the spec requires.  Numbers are modelled as Int.

Fallible behaviour of the source is modelled with Except:
- the immutability-helper $push command throws when its target is not an
  array; a client field named connections that was never set is an Option
  that is none, and pushing onto none yields pushTargetNotArray;
- clientAction throws on an unregistered event type (unhandledEventType);
- getTransform throws on an unknown direction string (invalidDirection);
- reading a property of an absent client record throws in JavaScript and is
  modelled as nilAccess.

The embedder-supplied hooks (client.init, cluster.init, event handlers and
the two update hooks) are abstract functions carried in a Config record.
The source passes differently shaped first arguments to client.init at its
three call sites, which is modelled by the inductive ClientInitArg.

The module utils.js of this repository is not under src/, so the three
projection helpers it supplies are modelled from the spec (each such
definition carries a doc comment starting with: Modelled from the spec).
-/

namespace Swip

/-- A width and height pair, as in the size field of a client. -/
structure Size where
  width : Int
  height : Int
deriving DecidableEq

/-- An x and y pair, used for transforms and touch positions. -/
structure Coord where
  x : Int
  y : Int
deriving DecidableEq

/-- A swipe event.  The timestamp is absent on receipt and is assigned by
addSwipe, so it is an Option. -/
structure Swipe where
  id : Nat
  direction : String
  position : Coord
  timestamp : Option Int
deriving DecidableEq

/-- A client record.  The source keeps several fields that are only
sometimes present on the JavaScript object, so each of those is an Option:
connect sets adjacentClientIDs and clusterID (capital D) but never
clusterId or connections, which are the fields read and written by the
rest of the reducer. -/
structure Client (Data : Type) where
  id : Nat
  size : Size
  transform : Coord
  adjacentClientIDs : Option (List Nat)
  clusterID : Option Nat
  clusterId : Option Nat
  connections : Option (List Nat)
  data : Option Data
deriving DecidableEq

/-- A cluster record: an id and the embedder-owned data payload. -/
structure Cluster (CData : Type) where
  id : Nat
  data : CData
deriving DecidableEq

/-- The reducer state: clusters and clients keyed by id, and the pending
swipe queue in first-in-first-out order. -/
structure State (Data CData : Type) where
  clusters : List (Nat × Cluster CData)
  clients : List (Nat × Client Data)
  swipes : List Swipe
deriving DecidableEq

/-- Lookup in an association list, first match wins: models indexing a
JavaScript object by key. -/
def lookupA {α : Type} : Nat → List (Nat × α) → Option α
  | _, [] => none
  | k, (k2, v) :: rest => if k2 = k then some v else lookupA k rest

/-- Set a key in an association list: replaces the first binding in place
when present, appends otherwise, matching assignment to an object key. -/
def setKey {α : Type} : List (Nat × α) → Nat → α → List (Nat × α)
  | [], k, v => [(k, v)]
  | (k2, v2) :: rest, k, v =>
    if k2 = k then (k, v) :: rest else (k2, v2) :: setKey rest k v

/-- Remove a key from an association list, as _.omit does.  The source
calls _.omit with an undefined key when a disconnecting client has no
cluster; no cluster is keyed by undefined, so that case removes nothing
and is modelled by the none branch. -/
def omitKey {α : Type} (l : List (Nat × α)) : Option Nat → List (Nat × α)
  | none => l
  | some k => l.filter (fun p => decide (p.1 ≠ k))

/-- Modelled from the spec: utils.getClientsInCluster is part of utils.js,
which is not under src/.  The spec describes a member of a cluster as a
client whose clusterId references that cluster, so this returns the stored
clients whose clusterId field equals the given value. -/
def getClientsInCluster {Data : Type} (clients : List (Nat × Client Data))
    (cid : Option Nat) : List (Client Data) :=
  (clients.filter (fun p => decide (p.2.clusterId = cid))).map (fun p => p.2)

/-- Read-only projection of a cluster handed to the cluster update hook. -/
structure ClusterStateView (Data CData : Type) where
  cluster : Option (Cluster CData)
  clients : List (Client Data)

/-- Read-only projection of a client handed to event handlers and the
client update hook. -/
structure ClientStateView (Data CData : Type) where
  client : Option (Client Data)
  cluster : Option (Cluster CData)
  clients : List (Client Data)

/-- Modelled from the spec: utils.getClusterState is part of utils.js,
which is not under src/.  The spec says the projection helpers expose, for
an id, the cluster and all clients in that cluster. -/
def getClusterState {Data CData : Type} (st : State Data CData) (cid : Nat) :
    ClusterStateView Data CData :=
  { cluster := lookupA cid st.clusters
    clients := getClientsInCluster st.clients (some cid) }

/-- Modelled from the spec: utils.getClientState is part of utils.js,
which is not under src/.  The spec says the projection helpers expose the
client (if applicable), its cluster, and all clients in that cluster. -/
def getClientState {Data CData : Type} (st : State Data CData) (id : Nat) :
    ClientStateView Data CData :=
  let c := lookupA id st.clients
  let cid := c.bind (fun x => x.clusterId)
  { client := c
    cluster := cid.bind (fun k => lookupA k st.clusters)
    clients := getClientsInCluster st.clients cid }

/-- The cluster view built inside joinCluster and passed to client.init:
its data field holds the raw cluster record found in state (not the record
data payload) and its clients field holds the members plus the joiner. -/
structure JoinView (Data CData : Type) where
  data : Option (Cluster CData)
  clients : List (Client Data)

/-- The cluster view built inside createCluster and passed to client.init:
its data field holds the freshly computed cluster data payload and its
clients field holds the two clients being paired. -/
structure CreateView (Data CData : Type) where
  data : CData
  clients : List (Client Data)

/-- The argument shapes with which the source invokes config.client.init:
connect passes just the new client; joinCluster and createCluster pass a
cluster view and the client. -/
inductive ClientInitArg (Data CData : Type) where
  | connectArg (c : Client Data)
  | joinArg (view : JoinView Data CData) (c : Client Data)
  | createArg (view : CreateView Data CData) (c : Client Data)

/-- The argument shapes with which the source invokes config.cluster.init:
connect passes the single new client; createCluster passes the member
list. -/
inductive ClusterInitArg (Data : Type) where
  | connectArg (c : Client Data)
  | createArg (members : List (Client Data))

/-- The value an event handler returns: optional update descriptors for
the cluster record and for the client record, modelled as record
transformers. -/
structure HandlerResult (Data CData : Type) where
  cluster : Option (Cluster CData → Cluster CData)
  client : Option (Client Data → Client Data)

/-- The embedder-supplied configuration surface. -/
structure Config (Data CData P : Type) where
  clientInit : ClientInitArg Data CData → Data
  clusterInit : ClusterInitArg Data → CData
  clientEvents : String → Option (ClientStateView Data CData → P → HandlerResult Data CData)
  clientUpdate : Option (ClientStateView Data CData → Option Data → Option Data)
  clusterUpdate : Option (ClusterStateView Data CData → CData → CData)

/-- The synchronous failures the reducer can raise. -/
inductive RErr where
  | unhandledEventType (eventType : String)
  | invalidDirection (direction : String)
  | pushTargetNotArray
  | nilAccess
deriving DecidableEq

/-- The fixed coincidence window in milliseconds. -/
def SWIPE_DELAY_TOLERANCE : Int := 500

/-- The empty reducer state. -/
def initialState {Data CData : Type} : State Data CData :=
  { clusters := [], clients := [], swipes := [] }

/-- True when the client references a cluster, as the hasCluster helper of
the source: not nil means the clusterId field is present. -/
def hasCluster {Data : Type} (client : Client Data) : Bool :=
  client.clusterId.isSome

/-- One cluster entry of the tick pass: patch the data payload computed by
the cluster update hook from the projection of the pre-tick state. -/
def tickClusterEntry {Data CData : Type}
    (f : ClusterStateView Data CData → CData → CData) (st : State Data CData)
    (p : Nat × Cluster CData) : Nat × Cluster CData :=
  (p.1, { p.2 with data := f (getClusterState st p.1) p.2.data })

/-- One client entry of the tick pass: clients with no cluster are
skipped, the others get a data payload computed by the client update hook
from the projection of the pre-tick state. -/
def tickClientEntry {Data CData : Type}
    (g : ClientStateView Data CData → Option Data → Option Data)
    (st : State Data CData) (p : Nat × Client Data) : Nat × Client Data :=
  if hasCluster p.2 then
    (p.1, { p.2 with data := g (getClientState st p.1) p.2.data })
  else p

/-- The NEXT_STATE operation: both change sets are computed from the same
pre-tick snapshot, then applied at once, as the source does. -/
def nextState {Data CData P : Type} (cfg : Config Data CData P)
    (st : State Data CData) : State Data CData :=
  { st with
      clusters :=
        match cfg.clusterUpdate with
        | none => st.clusters
        | some f => st.clusters.map (tickClusterEntry f st)
      clients :=
        match cfg.clientUpdate with
        | none => st.clients
        | some g => st.clients.map (tickClientEntry g st) }

/-- Apply a record transformer at one key of an association list, leaving
every other binding alone. -/
def applyAtKey {α : Type} (l : List (Nat × α)) (k : Nat) (f : α → α) :
    List (Nat × α) :=
  l.map (fun p => if p.1 = k then (p.1, f p.2) else p)

/-- The CLIENT_ACTION operation.  An unregistered event type throws; an
unknown client id, or a client with no clusterId, is a benign no-op; else
the handler runs on the client projection and its optional cluster and
client update descriptors are merged in. -/
def clientAction {Data CData P : Type} (cfg : Config Data CData P)
    (st : State Data CData) (id : Nat) (ty : String) (payload : P) :
    Except RErr (State Data CData) :=
  match cfg.clientEvents ty with
  | none => .error (.unhandledEventType ty)
  | some handler =>
    match lookupA id st.clients with
    | none => .ok st
    | some client =>
      match client.clusterId with
      | none => .ok st
      | some cid =>
        let res := handler (getClientState st id) payload
        .ok { st with
                clusters :=
                  match res.cluster with
                  | none => st.clusters
                  | some f => applyAtKey st.clusters cid f
                clients :=
                  match res.client with
                  | none => st.clients
                  | some f => applyAtKey st.clients id f }

/-- The CONNECT operation.  Note the two field names that diverge from the
rest of the reducer: the fresh cluster id is stored under clusterID
(capital D) and the empty peer list under adjacentClientIDs, while
clusterId and connections stay absent.  Both records are inserted. -/
def connect {Data CData P : Type} (cfg : Config Data CData P)
    (st : State Data CData) (id : Nat) (size : Size) (freshClusterID : Nat) :
    State Data CData :=
  let client : Client Data :=
    { id := id, size := size, transform := { x := 0, y := 0 }
      adjacentClientIDs := some [], clusterID := some freshClusterID
      clusterId := none, connections := none, data := none }
  let clientData := cfg.clientInit (.connectArg client)
  let clusterData := cfg.clusterInit (.connectArg client)
  { st with
      clusters := setKey st.clusters freshClusterID
        { id := freshClusterID, data := clusterData }
      clients := setKey st.clients id { client with data := some clientData } }

/-- Whether a stored swipe falls inside the coincidence window of the
given current time.  A swipe with no timestamp compares as NaN in the
source and is never coincident. -/
def coincident (now : Int) (s : Swipe) : Bool :=
  match s.timestamp with
  | none => false
  | some ts => decide (now - ts < SWIPE_DELAY_TOLERANCE)

/-- Filter the pending queue to the entries inside the window. -/
def getCoincidentSwipes (now : Int) (swipes : List Swipe) : List Swipe :=
  swipes.filter (coincident now)

/-- Stamp the incoming swipe with the receipt time and store the filtered
queue plus the stamped swipe.  Note the first argument is the already
filtered queue, exactly as in the source, so the stored queue is replaced,
not appended to. -/
def addSwipe {Data CData : Type} (st : State Data CData)
    (swipes : List Swipe) (swipe : Swipe) (now : Int) : State Data CData :=
  { st with swipes := swipes ++ [{ swipe with timestamp := some now }] }

/-- The $push command of immutability-helper: requires the target field to
already hold an array, otherwise it throws. -/
def pushConnections {Data : Type} (c : Client Data) (ids : List Nat) :
    Except RErr (Client Data) :=
  match c.connections with
  | none => .error .pushTargetNotArray
  | some l => .ok { c with connections := some (l ++ ids) }

/-- The transform of the joining client relative to the anchor, keyed on
the anchor swipe direction; an unknown direction throws. -/
def getTransform {Data : Type} (clientA : Client Data) (swipeA : Swipe)
    (clientB : Client Data) (swipeB : Swipe) : Except RErr Coord :=
  if swipeA.direction = "LEFT" then
    .ok { x := clientA.transform.x - clientB.size.width
          y := clientA.transform.y + (swipeA.position.y - swipeB.position.y) }
  else if swipeA.direction = "RIGHT" then
    .ok { x := clientA.transform.x + clientA.size.width
          y := clientA.transform.y + (swipeA.position.y - swipeB.position.y) }
  else if swipeA.direction = "UP" then
    .ok { x := clientA.transform.x + (swipeA.position.x - swipeB.position.x)
          y := clientA.transform.y - clientB.size.height }
  else if swipeA.direction = "DOWN" then
    .ok { x := clientA.transform.x + (swipeA.position.x - swipeB.position.x)
          y := clientA.transform.y + clientA.size.height }
  else
    .error (.invalidDirection swipeA.direction)

/-- The join path of a swipe match: clientA is the host already in a
cluster, clientB joins it.  The cluster record itself is not touched: the
view handed to client.init carries the raw cluster record in its data
field and the member list plus the joiner.  The transform is evaluated
while the update descriptor is built, so an invalid direction throws
before the two pushes run, and each push throws when the connections field
of its client is absent. -/
def joinCluster {Data CData P : Type} (cfg : Config Data CData P)
    (st : State Data CData) (clientA : Client Data) (swipeA : Swipe)
    (clientB : Client Data) (swipeB : Swipe) :
    Except RErr (List (Nat × Client Data) × List (Nat × Cluster CData)) :=
  let clusterId := clientA.clusterId
  let view : JoinView Data CData :=
    { data := clusterId.bind (fun k => lookupA k st.clusters)
      clients := getClientsInCluster st.clients clusterId ++ [clientB] }
  let clientData := cfg.clientInit (.joinArg view clientB)
  match getTransform clientA swipeA clientB swipeB with
  | .error e => .error e
  | .ok t =>
    match pushConnections clientA [swipeB.id] with
    | .error e => .error e
    | .ok a2 =>
      match pushConnections
          { clientB with clusterId := clusterId, data := some clientData
                         transform := t } [swipeA.id] with
      | .error e => .error e
      | .ok b2 =>
        .ok (setKey (setKey st.clients clientA.id a2) clientB.id b2, st.clusters)

/-- The create path of a swipe match: a fresh cluster from exactly the two
clients; both data payloads come from client.init on the create view, the
transform of clientB is computed relative to clientA, and both connection
pushes are subject to the $push array requirement. -/
def createCluster {Data CData P : Type} (cfg : Config Data CData P)
    (st : State Data CData) (clientA : Client Data) (swipeA : Swipe)
    (clientB : Client Data) (swipeB : Swipe) (fresh : Nat) :
    Except RErr (List (Nat × Client Data) × List (Nat × Cluster CData)) :=
  let clusterData := cfg.clusterInit (.createArg [clientA, clientB])
  let view : CreateView Data CData :=
    { data := clusterData, clients := [clientA, clientB] }
  let clientAData := cfg.clientInit (.createArg view clientA)
  let clientBData := cfg.clientInit (.createArg view clientB)
  match getTransform clientA swipeA clientB swipeB with
  | .error e => .error e
  | .ok t =>
    match pushConnections
        { clientA with clusterId := some fresh, data := some clientAData }
        [swipeB.id] with
    | .error e => .error e
    | .ok a2 =>
      match pushConnections
          { clientB with clusterId := some fresh, data := some clientBData
                         transform := t } [swipeA.id] with
      | .error e => .error e
      | .ok b2 =>
        .ok (setKey (setKey st.clients clientA.id a2) clientB.id b2,
             setKey st.clusters fresh { id := fresh, data := clusterData })

/-- The merge policy: the incoming side hosts when it has a cluster, else
the candidate side, else a fresh cluster is created.  A swipe from an id
with no stored client dereferences undefined in the source; both absent
cases are modelled as the nilAccess failure. -/
def clusterClients {Data CData P : Type} (cfg : Config Data CData P)
    (st : State Data CData) (swipeA swipeB : Swipe) (fresh : Nat) :
    Except RErr (List (Nat × Client Data) × List (Nat × Cluster CData)) :=
  match lookupA swipeA.id st.clients, lookupA swipeB.id st.clients with
  | some clientA, some clientB =>
    if clientA.clusterId.isSome then
      joinCluster cfg st clientA swipeA clientB swipeB
    else if clientB.clusterId.isSome then
      joinCluster cfg st clientB swipeB clientA swipeA
    else
      createCluster cfg st clientA swipeA clientB swipeB fresh
  | _, _ => .error .nilAccess

/-- A successful match replaces the client and cluster maps and clears the
whole pending queue. -/
def matchSwipes {Data CData P : Type} (cfg : Config Data CData P)
    (st : State Data CData) (swipeA swipeB : Swipe) (fresh : Nat) :
    Except RErr (State Data CData) :=
  match clusterClients cfg st swipeA swipeB fresh with
  | .error e => .error e
  | .ok pair => .ok { st with swipes := [], clients := pair.1, clusters := pair.2 }

/-- The SWIPE operation: filter the queue to the coincidence window; when
no candidate remains, stamp and store the incoming swipe on top of the
filtered queue; otherwise match with the first candidate. -/
def doSwipe {Data CData P : Type} (cfg : Config Data CData P)
    (st : State Data CData) (swipe : Swipe) (now : Int) (fresh : Nat) :
    Except RErr (State Data CData) :=
  match getCoincidentSwipes now st.swipes with
  | [] => .ok (addSwipe st (getCoincidentSwipes now st.swipes) swipe now)
  | swipeB :: _ => matchSwipes cfg st swipe swipeB fresh

/-- Drop the cluster record only when the given clients hold at most one
member of the cluster; the member count is taken on the client map passed
in, which at both call sites is the map from before the departure. -/
def removeEmptyCluster {Data CData : Type}
    (clusters : List (Nat × Cluster CData)) (clients : List (Nat × Client Data))
    (cid : Option Nat) : List (Nat × Cluster CData) :=
  if (getClientsInCluster clients cid).length > 1 then clusters
  else omitKey clusters cid

/-- The LEAVE_CLUSTER operation: unknown or clusterless clients are
no-ops; otherwise the clusterId field is cleared (the client record stays)
and the vacated cluster is dropped when the pre-departure member count was
at most one. -/
def leaveCluster {Data CData : Type} (st : State Data CData) (id : Nat) :
    State Data CData :=
  match lookupA id st.clients with
  | none => st
  | some client =>
    match client.clusterId with
    | none => st
    | some cid =>
      { st with
          clusters := removeEmptyCluster st.clusters st.clients (some cid)
          clients := setKey st.clients id { client with clusterId := none } }

/-- The DISCONNECT operation: unknown clients are no-ops; otherwise the
client record is removed and the same cluster cleanup as leaveCluster runs
on the pre-departure member count. -/
def disconnect {Data CData : Type} (st : State Data CData) (id : Nat) :
    State Data CData :=
  match lookupA id st.clients with
  | none => st
  | some client =>
    { st with
        clusters := removeEmptyCluster st.clusters st.clients client.clusterId
        clients := omitKey st.clients (some id) }

/-- The action vocabulary of the reducer. -/
inductive Action (P : Type) where
  | nextStateAct
  | clientActionAct (id : Nat) (eventType : String) (payload : P)
  | connectAct (id : Nat) (size : Size)
  | swipeAct (id : Nat) (direction : String) (position : Coord)
  | leaveClusterAct (id : Nat)
  | disconnectAct (id : Nat)
  | otherAct

/-- One application of the reducer.  The current time and the fresh id the
uid generator would supply are passed in explicitly; unknown action types
return the state unchanged. -/
def reducerStep {Data CData P : Type} (cfg : Config Data CData P)
    (st : State Data CData) (a : Action P) (now : Int) (fresh : Nat) :
    Except RErr (State Data CData) :=
  match a with
  | .nextStateAct => .ok (nextState cfg st)
  | .clientActionAct id ty payload => clientAction cfg st id ty payload
  | .connectAct id size => .ok (connect cfg st id size fresh)
  | .swipeAct id dir pos =>
    doSwipe cfg st { id := id, direction := dir, position := pos, timestamp := none } now fresh
  | .leaveClusterAct id => .ok (leaveCluster st id)
  | .disconnectAct id => .ok (disconnect st id)
  | .otherAct => .ok st

/-- Run a sequence of actions, each with its receipt time and fresh id,
stopping at the first thrown error. -/
def runScript {Data CData P : Type} (cfg : Config Data CData P) :
    State Data CData → List (Action P × Int × Nat) → Except RErr (State Data CData)
  | st, [] => .ok st
  | st, step :: rest =>
    match reducerStep cfg st step.1 step.2.1 step.2.2 with
    | .error e => .error e
    | .ok st2 => runScript cfg st2 rest

/-- A trivial configuration over Unit payloads, used for concrete runs. -/
def cfg0 : Config Unit Unit Unit :=
  { clientInit := fun _ => (), clusterInit := fun _ => ()
    clientEvents := fun _ => none, clientUpdate := none, clusterUpdate := none }

/-- A handler registered under the event type ping in cfgE. -/
def pingHandler : ClientStateView Unit Unit → Unit → HandlerResult Unit Unit :=
  fun _ _ => { cluster := none, client := none }

/-- A configuration with exactly one registered event type. -/
def cfgE : Config Unit Unit Unit :=
  { clientInit := fun _ => (), clusterInit := fun _ => ()
    clientEvents := fun t => if t = "ping" then some pingHandler else none
    clientUpdate := none, clusterUpdate := none }

/-- A configuration with a client update hook configured for the tick. -/
def cfgT : Config Unit Unit Unit :=
  { clientInit := fun _ => (), clusterInit := fun _ => ()
    clientEvents := fun _ => none
    clientUpdate := some (fun _ _ => some ()), clusterUpdate := none }

/-- A configuration over Nat payloads whose cluster init hook always
returns 99 and whose client init hook always returns 7, so recomputation
of a data payload is observable. -/
def cfg5 : Config Nat Nat Unit :=
  { clientInit := fun _ => 7, clusterInit := fun _ => 99
    clientEvents := fun _ => none, clientUpdate := none, clusterUpdate := none }

/-- A clustered host client used in the join scenario: member of cluster
7, with a present (empty) connections array so pushes succeed. -/
def host1 : Client Nat :=
  { id := 1, size := { width := 100, height := 100 }
    transform := { x := 0, y := 0 }, adjacentClientIDs := some []
    clusterID := some 11, clusterId := some 7
    connections := some [], data := some 5 }

/-- An unclustered client used in the join scenario, with a present
(empty) connections array so pushes succeed. -/
def join2 : Client Nat :=
  { id := 2, size := { width := 100, height := 100 }
    transform := { x := 0, y := 0 }, adjacentClientIDs := some []
    clusterID := some 12, clusterId := none
    connections := some [], data := some 5 }

/-- The pending host swipe of the join scenario. -/
def sw1p : Swipe :=
  { id := 1, direction := "RIGHT", position := { x := 50, y := 50 }, timestamp := some 0 }

/-- The incoming joiner swipe of the join scenario. -/
def sw5 : Swipe :=
  { id := 2, direction := "LEFT", position := { x := 50, y := 50 }, timestamp := none }

/-- The join scenario state: cluster 7 with data 0, its member host1, the
unclustered join2, and the pending host swipe. -/
def st5 : State Nat Nat :=
  { clusters := [(7, { id := 7, data := 0 })]
    clients := [(1, host1), (2, join2)]
    swipes := [sw1p] }

/-- The member list the claim about the join path refers to: the cluster
members together with the joining client. -/
def memb5 : List (Client Nat) := [host1, join2]

/-- A member of cluster 7 stored at key 1, over Unit payloads. -/
def cw1 : Client Unit :=
  { id := 1, size := { width := 100, height := 100 }
    transform := { x := 0, y := 0 }, adjacentClientIDs := some []
    clusterID := some 11, clusterId := some 7
    connections := some [], data := some () }

/-- A second member of cluster 7 stored at key 2, over Unit payloads. -/
def cw2 : Client Unit :=
  { id := 2, size := { width := 100, height := 100 }
    transform := { x := 0, y := 0 }, adjacentClientIDs := some []
    clusterID := some 12, clusterId := some 7
    connections := some [], data := some () }

/-- A state where cluster 7 has the two members cw1 and cw2. -/
def st3 : State Unit Unit :=
  { clusters := [(7, { id := 7, data := () })]
    clients := [(1, cw1), (2, cw2)]
    swipes := [] }

/-- A state where cluster 7 has cw1 as its sole member. -/
def stSolo : State Unit Unit :=
  { clusters := [(7, { id := 7, data := () })]
    clients := [(1, cw1)]
    swipes := [] }

/-- A state whose queue holds one stale swipe, stamped at time 0. -/
def st6 : State Unit Unit :=
  { clusters := [], clients := []
    swipes := [{ id := 1, direction := "RIGHT", position := { x := 0, y := 0 }, timestamp := some 0 }] }

/-- An incoming swipe for the stale-queue scenario. -/
def inc6 : Swipe :=
  { id := 2, direction := "LEFT", position := { x := 0, y := 0 }, timestamp := none }

/-- The pending swipe of the window scenario, stamped at time 100. -/
def sw2w : Swipe :=
  { id := 1, direction := "RIGHT", position := { x := 0, y := 0 }, timestamp := some 100 }

/-- A state whose queue holds exactly the pending swipe sw2w. -/
def st2w : State Unit Unit :=
  { clusters := [], clients := [], swipes := [sw2w] }

/-- An incoming swipe for the window scenario. -/
def inc2w : Swipe :=
  { id := 2, direction := "LEFT", position := { x := 0, y := 0 }, timestamp := none }

/-- The anchor client of the transform round-trip check, size 100 by 50. -/
def a8 : Client Unit :=
  { id := 1, size := { width := 100, height := 50 }
    transform := { x := 3, y := 4 }, adjacentClientIDs := some []
    clusterID := some 11, clusterId := none
    connections := none, data := some () }

/-- The joiner client of the transform round-trip check, size 80 by 40. -/
def b8 : Client Unit :=
  { id := 2, size := { width := 80, height := 40 }
    transform := { x := 0, y := 0 }, adjacentClientIDs := some []
    clusterID := some 12, clusterId := none
    connections := none, data := some () }

/-- The anchor swipe of the round-trip check: RIGHT at x 10, y 5. -/
def sa8 : Swipe :=
  { id := 1, direction := "RIGHT", position := { x := 10, y := 5 }, timestamp := none }

/-- The joiner swipe of the round-trip check: LEFT at x 0, y 5. -/
def sb8 : Swipe :=
  { id := 2, direction := "LEFT", position := { x := 0, y := 5 }, timestamp := some 0 }

/-- The state right after one connect on the empty state. -/
def stConn : State Unit Unit :=
  connect cfg0 initialState 1 { width := 100, height := 100 } 5

/-- The two-client pairing scenario of the spec: two connects, a RIGHT
swipe from client 1 at time 0, and a LEFT swipe from client 2 at time 400,
inside the 500 ms window. -/
def script1 : List (Action Unit × Int × Nat) :=
  [(.connectAct 1 { width := 100, height := 100 }, 0, 11),
   (.connectAct 2 { width := 100, height := 100 }, 0, 12),
   (.swipeAct 1 "RIGHT" { x := 50, y := 50 }, 0, 13),
   (.swipeAct 2 "LEFT" { x := 50, y := 50 }, 400, 14)]

/-- An unclustered client stored at key 1 for the dispatcher checks. -/
def clientE : Client Unit :=
  { id := 1, size := { width := 100, height := 100 }
    transform := { x := 0, y := 0 }, adjacentClientIDs := some []
    clusterID := some 11, clusterId := none
    connections := none, data := some () }

/-- A state holding only the unclustered clientE. -/
def stE : State Unit Unit :=
  { clusters := [], clients := [(1, clientE)], swipes := [] }

/-- A state with two unclustered clients at keys 1 and 2. -/
def stCC : State Unit Unit :=
  { clusters := [], clients := [(1, clientE), (2, { clientE with id := 2 })], swipes := [] }

/-- An unclustered client stored at key 3 for the tick and dispatcher
witnesses. -/
def clientT : Client Unit := { clientE with id := 3 }

/-- A state holding only the unclustered clientT. -/
def stT : State Unit Unit :=
  { clusters := [], clients := [(3, clientT)], swipes := [] }

/-- A pending swipe from client 1 for the create-branch witness. -/
def swaW : Swipe :=
  { id := 1, direction := "RIGHT", position := { x := 0, y := 0 }, timestamp := none }

/-- A pending swipe from client 2 for the create-branch witness. -/
def swbW : Swipe :=
  { id := 2, direction := "LEFT", position := { x := 0, y := 0 }, timestamp := some 0 }

theorem lookupA_setKey_self {α : Type} (l : List (Nat × α)) (k : Nat) (v : α) :
    lookupA k (setKey l k v) = some v := by
  induction l with
  | nil => simp [setKey, lookupA]
  | cons p rest ih =>
    obtain ⟨k2, v2⟩ := p
    by_cases h : k2 = k
    · simp [setKey, h, lookupA]
    · simp [setKey, h, lookupA, ih]

theorem lookupA_omitKey_self {α : Type} (l : List (Nat × α)) (k : Nat) :
    lookupA k (omitKey l (some k)) = none := by
  induction l with
  | nil => rfl
  | cons p rest ih =>
    obtain ⟨k2, v2⟩ := p
    by_cases h : k2 = k
    · simpa [omitKey, List.filter, h] using ih
    · simpa [omitKey, List.filter, h, lookupA] using ih

theorem lookupA_omitKey_ne {α : Type} (l : List (Nat × α)) (k j : Nat)
    (h : j ≠ k) : lookupA j (omitKey l (some k)) = lookupA j l := by
  induction l with
  | nil => rfl
  | cons p rest ih =>
    obtain ⟨k2, v2⟩ := p
    by_cases h2 : k2 = k
    · subst h2
      have : k2 ≠ j := fun hx => h hx.symm
      simpa [omitKey, List.filter, lookupA, this] using ih
    · by_cases h3 : k2 = j
      · simp [omitKey, List.filter, h2, lookupA, h3, h]
      · simpa [omitKey, List.filter, h2, lookupA, h3] using ih

theorem tickClientEntry_fst {Data CData : Type}
    (g : ClientStateView Data CData → Option Data → Option Data)
    (st : State Data CData) (p : Nat × Client Data) :
    (tickClientEntry g st p).1 = p.1 := by
  unfold tickClientEntry
  split <;> rfl

theorem lookupA_map_tickClientEntry {Data CData : Type}
    (g : ClientStateView Data CData → Option Data → Option Data)
    (st : State Data CData) (l : List (Nat × Client Data)) (id : Nat)
    (c : Client Data) (hc : lookupA id l = some c) (hn : c.clusterId = none) :
    lookupA id (l.map (tickClientEntry g st)) = some c := by
  induction l with
  | nil => simp [lookupA] at hc
  | cons p rest ih =>
    obtain ⟨k, v⟩ := p
    by_cases h : k = id
    · subst h
      have hv : v = c := by simpa [lookupA] using hc
      subst hv
      have htc : tickClientEntry g st (k, v) = (k, v) := by
        simp [tickClientEntry, hasCluster, hn]
      rw [List.map_cons, htc]
      simp [lookupA]
    · have hc2 : lookupA id rest = some c := by simpa [lookupA, h] using hc
      rcases htc : tickClientEntry g st (k, v) with ⟨k3, v3⟩
      have hk3 : k3 = k := by
        have hfst := tickClientEntry_fst g st (k, v)
        rw [htc] at hfst
        exact hfst
      rw [List.map_cons, htc]
      simp [lookupA, hk3, h]
      exact ih hc2

/-- C1: the two-client pairing scenario of the spec (connect 1, connect 2,
swipe RIGHT from 1 at time 0, swipe LEFT from 2 at time 400, inside the
500 ms window) does not produce the claimed shared-cluster state: the
reducer throws pushTargetNotArray while merging, because connect stores
the empty peer list under adjacentClientIDs and never creates the
connections field that createCluster pushes onto.  Were the field present,
the merge would set both clusterId fields to the fresh id, clear the
queue, and leave client 2 at transform.x equal to client 1 transform.x
plus 100, but as written the code crashes at the fourth action. -/
theorem c1_pairing_scenario_crash :
    runScript cfg0 initialState script1 = .error .pushTargetNotArray := rfl

/-- C9: connect inserts a new client record with the given id and size,
transform zero, data from the client init hook, and a new cluster record
with data from the cluster init hook; but it does not give the client an
empty connections sequence.  The connections field is absent (none) and
the empty list sits under adjacentClientIDs instead, which is the slip
that makes every later connections push throw. -/
theorem c9_connect_result :
    lookupA 1 stConn.clients = some
      { id := 1, size := { width := 100, height := 100 }
        transform := { x := 0, y := 0 }, adjacentClientIDs := some []
        clusterID := some 5, clusterId := none
        connections := none, data := some () }
    ∧ lookupA 5 stConn.clusters = some { id := 5, data := () } :=
  ⟨rfl, rfl⟩

/-- C8: the transform computation returns, for each of the four anchor
directions, the edge alignment formulas of the spec, fails with
invalidDirection on any other direction string, and on the concrete
round-trip pair (anchor swiping RIGHT at x 10, y 5 with size 100 by 50,
joiner swiping LEFT at x 0, y 5 with size 80 by 40) places the joiner at
anchor x plus 100 and anchor y plus 0. -/
theorem c8_transform_rules :
    (∀ (Data : Type) (A B : Client Data) (sA sB : Swipe),
      (sA.direction = "LEFT" →
        getTransform A sA B sB = .ok
          { x := A.transform.x - B.size.width
            y := A.transform.y + (sA.position.y - sB.position.y) })
      ∧ (sA.direction = "RIGHT" →
        getTransform A sA B sB = .ok
          { x := A.transform.x + A.size.width
            y := A.transform.y + (sA.position.y - sB.position.y) })
      ∧ (sA.direction = "UP" →
        getTransform A sA B sB = .ok
          { x := A.transform.x + (sA.position.x - sB.position.x)
            y := A.transform.y - B.size.height })
      ∧ (sA.direction = "DOWN" →
        getTransform A sA B sB = .ok
          { x := A.transform.x + (sA.position.x - sB.position.x)
            y := A.transform.y + A.size.height })
      ∧ (sA.direction ≠ "LEFT" → sA.direction ≠ "RIGHT" →
         sA.direction ≠ "UP" → sA.direction ≠ "DOWN" →
        getTransform A sA B sB = .error (.invalidDirection sA.direction)))
    ∧ getTransform a8 sa8 b8 sb8 = .ok
        { x := a8.transform.x + 100, y := a8.transform.y + 0 } := by
  constructor
  · intro Data A B sA sB
    refine ⟨?_, ?_, ?_, ?_, ?_⟩
    · intro h
      simp [getTransform, h]
    · intro h
      simp [getTransform, h]
    · intro h
      simp [getTransform, h]
    · intro h
      simp [getTransform, h]
    · intro h1 h2 h3 h4
      simp [getTransform, h1, h2, h3, h4]
  · rfl

/-- Witness for C8: the theorem applied at concrete inputs, one valid
direction and one invalid direction, with every hypothesis discharged. -/
theorem c8_transform_rules_witness :
    getTransform a8 { id := 1, direction := "UP", position := { x := 10, y := 5 }, timestamp := none } b8 sb8
      = .ok { x := a8.transform.x + (10 - 0), y := a8.transform.y - b8.size.height }
    ∧ getTransform a8 { id := 1, direction := "DIAG", position := { x := 10, y := 5 }, timestamp := none } b8 sb8
      = .error (.invalidDirection "DIAG") :=
  ⟨(c8_transform_rules.1 Unit a8 b8
      { id := 1, direction := "UP", position := { x := 10, y := 5 }, timestamp := none } sb8).2.2.1 rfl,
   (c8_transform_rules.1 Unit a8 b8
      { id := 1, direction := "DIAG", position := { x := 10, y := 5 }, timestamp := none } sb8).2.2.2.2
     (by decide) (by decide) (by decide) (by decide)⟩

/-- C2: with exactly one pending swipe stamped at time t, an incoming
swipe at time t plus 501 is outside the window, so it does not match and
is queued instead, while an incoming swipe at time t plus 499 finds the
pending swipe coincident and takes the match path with it as partner. -/
theorem c2_coincidence_window (Data CData P : Type) (cfg : Config Data CData P)
    (st : State Data CData) (s inc : Swipe) (t : Int) (fresh : Nat)
    (hq : st.swipes = [s]) (ht : s.timestamp = some t) :
    doSwipe cfg st inc (t + 501) fresh
      = .ok { st with swipes := [{ inc with timestamp := some (t + 501) }] }
    ∧ getCoincidentSwipes (t + 499) st.swipes = [s]
    ∧ doSwipe cfg st inc (t + 499) fresh = matchSwipes cfg st inc s fresh := by
  have h501 : coincident (t + 501) s = false := by
    simp [coincident, ht, SWIPE_DELAY_TOLERANCE]
  have h499 : coincident (t + 499) s = true := by
    simp [coincident, ht, SWIPE_DELAY_TOLERANCE]
  have hf1 : getCoincidentSwipes (t + 501) st.swipes = [] := by
    simp [getCoincidentSwipes, hq, List.filter, h501]
  have hf2 : getCoincidentSwipes (t + 499) st.swipes = [s] := by
    simp [getCoincidentSwipes, hq, List.filter, h499]
  refine ⟨?_, hf2, ?_⟩
  · simp [doSwipe, hf1, addSwipe]
  · simp [doSwipe, hf2]

/-- Witness for C2: the theorem applied to a queue holding one pending
swipe stamped at time 100, with both hypotheses discharged. -/
theorem c2_coincidence_window_witness :
    doSwipe cfg0 st2w inc2w (100 + 501) 5
      = .ok { st2w with swipes := [{ inc2w with timestamp := some (100 + 501) }] }
    ∧ getCoincidentSwipes (100 + 499) st2w.swipes = [sw2w]
    ∧ doSwipe cfg0 st2w inc2w (100 + 499) 5 = matchSwipes cfg0 st2w inc2w sw2w 5 :=
  c2_coincidence_window Unit Unit Unit cfg0 st2w sw2w inc2w 100 5 rfl rfl

/-- C6: contrary to the claim, a swipe action that finds no coincident
candidate does not keep the old stored entries: at this concrete input the
stored queue after the action holds only the stamped incoming swipe, not
the stale entry followed by the incoming one. -/
theorem c6_stale_linger_cex :
    ¬ ((doSwipe cfg0 st6 inc6 1000 9).toOption.map (fun s2 => s2.swipes)
        = some (st6.swipes ++ [{ inc6 with timestamp := some 1000 }])) := by
  decide

/-- C6 amended: a swipe action that finds no match replaces the stored
queue with the coincidence-filtered queue (empty in that branch) plus the
stamped incoming swipe, so entries older than the tolerance window are
purged at that moment; and a swipe action that does find a match clears
the entire queue. -/
theorem c6_queue_replacement (Data CData P : Type) (cfg : Config Data CData P)
    (st : State Data CData) (swipe : Swipe) (now : Int) (fresh : Nat) :
    (getCoincidentSwipes now st.swipes = [] →
      doSwipe cfg st swipe now fresh
        = .ok { st with swipes := [{ swipe with timestamp := some now }] })
    ∧ (∀ (b : Swipe) (bs : List Swipe) (st2 : State Data CData),
      getCoincidentSwipes now st.swipes = b :: bs →
      doSwipe cfg st swipe now fresh = .ok st2 → st2.swipes = []) := by
  constructor
  · intro h
    simp [doSwipe, h, addSwipe]
  · intro b bs st2 hb hok
    simp [doSwipe, hb] at hok
    cases hcc : clusterClients cfg st swipe b fresh with
    | error e => simp [matchSwipes, hcc] at hok
    | ok pair =>
      simp [matchSwipes, hcc] at hok
      rw [← hok]

/-- Witness for C6: the theorem applied to the stale-queue state, with the
no-match hypothesis discharged. -/
theorem c6_queue_replacement_witness :
    doSwipe cfg0 st6 inc6 1000 9
      = .ok { st6 with swipes := [{ inc6 with timestamp := some 1000 }] } :=
  (c6_queue_replacement Unit Unit Unit cfg0 st6 inc6 1000 9).1 rfl

/-- C7: clientAction on an unregistered event type fails with the
unhandledEventType error, which the top level reducer propagates and, the
embedding being pure, no state change is produced; while with a registered
type an unknown client id, or a known client with no clusterId, returns
the unchanged state without error. -/
theorem c7_dispatcher_errors (Data CData P : Type) (cfg : Config Data CData P)
    (st : State Data CData) (id : Nat) (ty : String) (payload : P)
    (now : Int) (fresh : Nat) :
    (cfg.clientEvents ty = none →
      clientAction cfg st id ty payload = .error (.unhandledEventType ty)
      ∧ reducerStep cfg st (.clientActionAct id ty payload) now fresh
          = .error (.unhandledEventType ty))
    ∧ (∀ h, cfg.clientEvents ty = some h → lookupA id st.clients = none →
      clientAction cfg st id ty payload = .ok st)
    ∧ (∀ h (c : Client Data), cfg.clientEvents ty = some h →
      lookupA id st.clients = some c → c.clusterId = none →
      clientAction cfg st id ty payload = .ok st) := by
  refine ⟨?_, ?_, ?_⟩
  · intro hn
    exact ⟨by simp [clientAction, hn], by simp [reducerStep, clientAction, hn]⟩
  · intro h hsome hnone
    simp [clientAction, hsome, hnone]
  · intro h c hsome hc hcid
    simp [clientAction, hsome, hc, hcid]

/-- Witness for C7: the theorem applied to a configuration registering
only the ping event, at an unregistered type, an unknown id, and an
unclustered client, with every hypothesis discharged. -/
theorem c7_dispatcher_errors_witness :
    clientAction cfgE stE 1 "zap" () = .error (.unhandledEventType "zap")
    ∧ clientAction cfgE stE 9 "ping" () = .ok stE
    ∧ clientAction cfgE stE 1 "ping" () = .ok stE :=
  ⟨((c7_dispatcher_errors Unit Unit Unit cfgE stE 1 "zap" () 0 0).1 rfl).1,
   (c7_dispatcher_errors Unit Unit Unit cfgE stE 9 "ping" () 0 0).2.1 pingHandler rfl rfl,
   (c7_dispatcher_errors Unit Unit Unit cfgE stE 1 "ping" () 0 0).2.2 pingHandler clientE rfl rfl rfl⟩

/-- C3: contrary to the claim, a vacated cluster with exactly one
remaining member is not deleted: in the two-member cluster state st3,
after client 1 leaves, one member remains (at most 1), yet the cluster
record for 7 is still present, because the member count is taken before
the departure. -/
theorem c3_remaining_member_cex :
    ¬ ((getClientsInCluster (leaveCluster st3 1).clients (some 7)).length ≤ 1 →
       lookupA 7 (leaveCluster st3 1).clusters = none) := by
  decide

/-- C3 amended: leaveCluster clears the clusterId of the client (whose
record persists) and disconnect removes the client record leaving the
others alone; both delete the vacated cluster record if and only if the
cluster had at most one member counted before the departure, that is,
only when the departing client was its sole member. -/
theorem c3_departure_rule (Data CData : Type) (st : State Data CData)
    (id cid : Nat) (c : Client Data) (cl0 : Cluster CData)
    (hc : lookupA id st.clients = some c) (hk : c.clusterId = some cid)
    (hcl : lookupA cid st.clusters = some cl0) :
    lookupA id (leaveCluster st id).clients = some { c with clusterId := none }
    ∧ (lookupA cid (leaveCluster st id).clusters = none
        ↔ (getClientsInCluster st.clients (some cid)).length ≤ 1)
    ∧ lookupA id (disconnect st id).clients = none
    ∧ (∀ j, j ≠ id → lookupA j (disconnect st id).clients = lookupA j st.clients)
    ∧ (lookupA cid (disconnect st id).clusters = none
        ↔ (getClientsInCluster st.clients (some cid)).length ≤ 1) := by
  have hleave : leaveCluster st id =
      { st with
          clusters := removeEmptyCluster st.clusters st.clients (some cid)
          clients := setKey st.clients id { c with clusterId := none } } := by
    simp [leaveCluster, hc, hk]
  have hdisc : disconnect st id =
      { st with
          clusters := removeEmptyCluster st.clusters st.clients (some cid)
          clients := omitKey st.clients (some id) } := by
    simp [disconnect, hc, hk]
  have hrem : lookupA cid (removeEmptyCluster st.clusters st.clients (some cid)) = none
      ↔ (getClientsInCluster st.clients (some cid)).length ≤ 1 := by
    by_cases hlen : (getClientsInCluster st.clients (some cid)).length > 1
    · simp only [removeEmptyCluster]
      rw [if_pos hlen, hcl]
      constructor
      · intro hx
        cases hx
      · intro hle
        exact absurd hle (by omega)
    · simp only [removeEmptyCluster]
      rw [if_neg hlen]
      simp [lookupA_omitKey_self]
      omega
  refine ⟨?_, ?_, ?_, ?_, ?_⟩
  · rw [hleave]
    exact lookupA_setKey_self st.clients id { c with clusterId := none }
  · rw [hleave]
    exact hrem
  · rw [hdisc]
    exact lookupA_omitKey_self st.clients id
  · intro j hj
    rw [hdisc]
    exact lookupA_omitKey_ne st.clients id j hj
  · rw [hdisc]
    exact hrem

/-- Witness for C3 amended: the theorem applied to the sole-member state,
with all three hypotheses discharged. -/
theorem c3_departure_rule_witness :
    lookupA 1 (leaveCluster stSolo 1).clients = some { cw1 with clusterId := none }
    ∧ lookupA 1 (disconnect stSolo 1).clients = none :=
  ⟨(c3_departure_rule Unit Unit stSolo 1 7 cw1 { id := 7, data := () } rfl rfl rfl).1,
   (c3_departure_rule Unit Unit stSolo 1 7 cw1 { id := 7, data := () } rfl rfl rfl).2.2.1⟩

/-- C4: contrary to the claim, a reachable state can hold a cluster with
zero members: one connect on the initial state yields a state whose
cluster record 5 exists while no client references it, because connect
stores the fresh id under clusterID and not clusterId. -/
theorem c4_zero_member_cluster_cex :
    reducerStep cfg0 initialState (.connectAct 1 { width := 100, height := 100 }) 0 5
      = .ok stConn
    ∧ lookupA 5 stConn.clusters = some { id := 5, data := () }
    ∧ getClientsInCluster stConn.clients (some 5) = [] :=
  ⟨rfl, rfl, rfl⟩

/-- C4 amended: clusters created by connect start with zero members (the
clusterID field slip), but the departure operations never leave a
zero-member cluster record behind: when the departing client was the sole
member of its cluster, both leaveCluster and disconnect remove the cluster
record in the same step. -/
theorem c4_sole_member_cleanup (Data CData : Type) (st : State Data CData)
    (id cid : Nat) (c : Client Data)
    (hc : lookupA id st.clients = some c) (hk : c.clusterId = some cid)
    (hsole : (getClientsInCluster st.clients (some cid)).length ≤ 1) :
    lookupA cid (leaveCluster st id).clusters = none
    ∧ lookupA cid (disconnect st id).clusters = none := by
  have hlen : ¬ (getClientsInCluster st.clients (some cid)).length > 1 := by omega
  constructor
  · simp [leaveCluster, hc, hk, removeEmptyCluster, hlen, lookupA_omitKey_self]
  · simp [disconnect, hc, hk, removeEmptyCluster, hlen, lookupA_omitKey_self]

/-- Witness for C4 amended: the theorem applied to the sole-member state,
with every hypothesis discharged. -/
theorem c4_sole_member_cleanup_witness :
    lookupA 7 (leaveCluster stSolo 1).clusters = none
    ∧ lookupA 7 (disconnect stSolo 1).clusters = none :=
  c4_sole_member_cleanup Unit Unit stSolo 1 7 cw1 rfl rfl (by decide)

/-- C5: contrary to the claim, the join path does not recompute the host
cluster data: in the concrete join scenario (host in cluster 7 whose data
payload is 0, cluster init hook constantly 99), after the matching swipe
the data payload of cluster 7 is still 0 and not the hook result on the
updated member list. -/
theorem c5_cluster_data_not_recomputed_cex :
    ¬ ((doSwipe cfg5 st5 sw5 100 14).toOption.map
        (fun s2 => (lookupA 7 s2.clusters).map (fun cl => cl.data))
        = some (some (cfg5.clusterInit (.createArg memb5)))) := by
  decide

/-- C5 amended: on a swipe match where the incoming client already has a
cluster, the join path leaves the cluster map unchanged (no cluster data
recomputation); the joining client gets its clusterId set to the host
cluster, data from the client init hook applied to the join view (raw
cluster record plus the member list extended by the joiner) and the
joiner, its transform from the transform calculation relative to the host
and the host swipe, and each side has the partner id appended to its
connections, provided both connections arrays exist; when instead only the
candidate client has a cluster, the same join path runs with the roles
swapped. -/
theorem c5_join_path (Data CData P : Type) (cfg : Config Data CData P)
    (st : State Data CData) (swA swB : Swipe) (fresh : Nat)
    (cA cB : Client Data)
    (hA : lookupA swA.id st.clients = some cA)
    (hB : lookupA swB.id st.clients = some cB) :
    (∀ (k : Nat) (la lb : List Nat) (t : Coord),
      cA.clusterId = some k → cA.connections = some la →
      cB.connections = some lb →
      getTransform cA swA cB swB = .ok t →
      clusterClients cfg st swA swB fresh = .ok
        (setKey (setKey st.clients cA.id { cA with connections := some (la ++ [swB.id]) })
          cB.id
          { cB with clusterId := some k
                    data := some (cfg.clientInit (.joinArg
                      { data := lookupA k st.clusters
                        clients := getClientsInCluster st.clients (some k) ++ [cB] } cB))
                    transform := t
                    connections := some (lb ++ [swA.id]) },
         st.clusters))
    ∧ (cA.clusterId = none → ∀ (k2 : Nat), cB.clusterId = some k2 →
      clusterClients cfg st swA swB fresh = joinCluster cfg st cB swB cA swA) := by
  constructor
  · intro k la lb t hk hla hlb ht
    simp [clusterClients, hA, hB, hk, joinCluster, ht, pushConnections, hla, hlb]
  · intro hnone k2 hk2
    simp [clusterClients, hA, hB, hnone, hk2]

/-- Witness for C5 amended: the theorem applied to the concrete join
scenario, with every hypothesis discharged. -/
theorem c5_join_path_witness :
    clusterClients cfg5 st5 sw1p sw5 14 = .ok
      (setKey (setKey st5.clients host1.id { host1 with connections := some ([] ++ [2]) })
        join2.id
        { join2 with clusterId := some 7
                     data := some (cfg5.clientInit (.joinArg
                       { data := lookupA 7 st5.clusters
                         clients := getClientsInCluster st5.clients (some 7) ++ [join2] } join2))
                     transform := { x := 100, y := 0 }
                     connections := some ([] ++ [1]) },
       st5.clusters) :=
  (c5_join_path Nat Nat Unit cfg5 st5 sw1p sw5 14 host1 join2 rfl rfl).1
    7 [] [] { x := 100, y := 0 } rfl rfl rfl rfl

/-- C10: a client created by connect has no clusterId (the generated id is
stored under the differently cased clusterID), so the tick pass leaves its
record untouched, clientAction on it returns the unchanged state, and the
swipe matcher treats two such clients as clusterless and takes the
create-cluster branch rather than a join. -/
theorem c10_clusterID_field_mismatch (Data CData P : Type) (cfg : Config Data CData P) :
    (∀ (st : State Data CData) (id : Nat) (size : Size) (fresh : Nat),
      (lookupA id (connect cfg st id size fresh).clients).map
        (fun c => (c.clusterId, c.clusterID)) = some (none, some fresh))
    ∧ (∀ (st : State Data CData) (id : Nat) (c : Client Data),
      lookupA id st.clients = some c → c.clusterId = none →
      lookupA id (nextState cfg st).clients = some c)
    ∧ (∀ (st : State Data CData) (id : Nat) (ty : String) (payload : P)
        (h : ClientStateView Data CData → P → HandlerResult Data CData)
        (c : Client Data),
      cfg.clientEvents ty = some h → lookupA id st.clients = some c →
      c.clusterId = none → clientAction cfg st id ty payload = .ok st)
    ∧ (∀ (st : State Data CData) (swA swB : Swipe) (fresh : Nat)
        (cA cB : Client Data),
      lookupA swA.id st.clients = some cA → cA.clusterId = none →
      lookupA swB.id st.clients = some cB → cB.clusterId = none →
      clusterClients cfg st swA swB fresh = createCluster cfg st cA swA cB swB fresh) := by
  refine ⟨?_, ?_, ?_, ?_⟩
  · intro st id size fresh
    simp [connect, lookupA_setKey_self]
  · intro st id c hc hn
    cases hcu : cfg.clientUpdate with
    | none => simpa [nextState, hcu] using hc
    | some g =>
      simp only [nextState, hcu]
      exact lookupA_map_tickClientEntry g st st.clients id c hc hn
  · intro st id ty payload h c hreg hc hn
    simp [clientAction, hreg, hc, hn]
  · intro st swA swB fresh cA cB h1 h2 h3 h4
    simp [clusterClients, h1, h3, h2, h4]

/-- Witness for C10: the theorem applied at concrete inputs for each of
the four parts, with every hypothesis discharged. -/
theorem c10_clusterID_field_mismatch_witness :
    (lookupA 1 (connect cfg0 initialState 1 { width := 100, height := 100 } 5).clients).map
      (fun c => (c.clusterId, c.clusterID)) = some (none, some 5)
    ∧ lookupA 3 (nextState cfgT stT).clients = some clientT
    ∧ clientAction cfgE stT 3 "ping" () = .ok stT
    ∧ clusterClients cfg0 stCC swaW swbW 14
        = createCluster cfg0 stCC clientE swaW { clientE with id := 2 } swbW 14 :=
  ⟨(c10_clusterID_field_mismatch Unit Unit Unit cfg0).1 initialState 1 { width := 100, height := 100 } 5,
   (c10_clusterID_field_mismatch Unit Unit Unit cfgT).2.1 stT 3 clientT rfl rfl,
   (c10_clusterID_field_mismatch Unit Unit Unit cfgE).2.2.1 stT 3 "ping" () pingHandler clientT rfl rfl rfl,
   (c10_clusterID_field_mismatch Unit Unit Unit cfg0).2.2.2 stCC swaW swbW 14
     clientE { clientE with id := 2 } rfl rfl rfl rfl⟩

end Swip
